import Mathlib

/-!
Shallow embedding of the infracost resource-to-cost-component mapping engine:
the AWS `aws_instance` handler (`NewInstance` and its helpers) and the Azure
`azurerm_key_vault_key` handler (`NewAzureKeyVaultKey` and its helpers),
together with the schema data model they produce.

Conventions of the embedding:
* `gjson.Result` values are modelled by the inductive `GJson`; JSON numbers are
  modelled as exact rationals (every numeric literal reaching these handlers is
  a decimal literal, which `Rat` represents exactly).
* `decimal.Decimal` is modelled as `Rat`.  The only division performed by the
  embedded code divides an integer by a power of ten, which `shopspring/decimal`
  computes exactly, so exact rational division is faithful on all reachable
  inputs.
* Diagnostic logging (`log.Warnf`) is modelled by returning the list of warning
  messages alongside the result.
* The unguarded `keyVault[0]` index in `NewAzureKeyVaultKey` can panic at
  runtime; the handler is therefore embedded in `Except String`, where
  `.error` marks the Go runtime panic.
-/

/-! Structurally recursive string helpers.  The corresponding Lean core
functions (`String.splitOn`, `String.startsWith`, `String.endsWith`,
`String.toLower`, `String.toInt?`) are defined through well-founded recursion
or byte positions and do not reduce inside the kernel, so the embedding uses
these equivalents, which mirror the Go standard-library semantics the
handlers rely on. -/

/-- Splitting a dotted gjson path: `strings.Split(path, ".")`. -/
def splitDotsAux : List Char → List Char → List String
  | [], acc => [String.mk acc.reverse]
  | c :: cs, acc =>
    if c = '.' then String.mk acc.reverse :: splitDotsAux cs []
    else splitDotsAux cs (c :: acc)

/-- `strings.Split(s, ".")`. -/
def splitDots (s : String) : List String := splitDotsAux s.toList []

/-- `strings.HasPrefix(s, p)`. -/
def strStartsWith (s p : String) : Bool := p.toList.isPrefixOf s.toList

/-- `strings.HasSuffix(s, p)`. -/
def strEndsWith (s p : String) : Bool := p.toList.isSuffixOf s.toList

/-- `strings.ToLower` (ASCII, which is all these handlers compare). -/
def strToLower (s : String) : String := String.mk (s.toList.map Char.toLower)

/-- Digit-sequence parsing for `strconv.ParseInt` and gjson array indices:
`none` when a non-digit is met or the input is empty. -/
def parseDigits : List Char → Option Nat → Option Nat
  | [], acc => acc
  | c :: cs, acc =>
    if c.isDigit then
      parseDigits cs (some ((acc.getD 0) * 10 + (c.toNat - ('0').toNat)))
    else none

/-- Integer parsing (`strconv.ParseInt`) for the integer-literal strings these
handlers can meet. -/
def parseInt (s : String) : Option Int :=
  match s.toList with
  | '-' :: rest => (parseDigits rest none).map fun n => -((n : Int))
  | l => (parseDigits l none).map fun n => ((n : Int))

/-- A parsed JSON value as seen through `gjson.Result`. -/
inductive GJson where
  | null
  | bool (b : Bool)
  | num (n : Rat)
  | str (s : String)
  | arr (xs : List GJson)
  | obj (fields : List (String × GJson))

namespace GJson

/-- `Result.Type == gjson.Null`. -/
def isNull : GJson → Bool
  | null => true
  | _ => false

/-- `Result.Exists()`: true when the value is not the null/absent result. -/
def existsVal (g : GJson) : Bool := !g.isNull

/-- `Result.String()`.  Serialising composite values back to raw JSON is not
modelled (no handler in this development calls `String()` on an array or
object). -/
def asString : GJson → String
  | null => ""
  | bool b => if b then "true" else "false"
  | num n => if n.den = 1 then toString n.num else toString n
  | str s => s
  | arr _ => ""
  | obj _ => ""

/-- `Result.Bool()`: `strconv.ParseBool` on lower-cased strings, `Num != 0`
for numbers. -/
def asBool : GJson → Bool
  | bool b => b
  | num n => decide (n ≠ 0)
  | str s =>
    let l := strToLower s
    l = "1" || l = "t" || l = "true"
  | _ => false

/-- `Result.Int()` (truncation toward zero; string parsing covers the
integer-literal strings these handlers can meet). -/
def asInt : GJson → Int
  | num n => n.num.tdiv (n.den : Int)
  | str s => (parseInt s).getD 0
  | bool b => if b then 1 else 0
  | _ => 0

/-- `Result.Float()` (integer-literal string parsing suffices for the
handlers embedded here). -/
def asFloat : GJson → Rat
  | num n => n
  | str s => ((((parseInt s).getD 0 : Int)) : Rat)
  | bool b => if b then 1 else 0
  | _ => 0

/-- `Result.Array()`: null gives an empty slice, a non-array value is wrapped
in a singleton slice. -/
def asArray : GJson → List GJson
  | null => []
  | arr xs => xs
  | g => [g]

/-- One step of gjson path resolution: a key into an object, an index into an
array. -/
def getKey : GJson → String → GJson
  | obj fields, k => (fields.lookup k).getD null
  | arr xs, k =>
    match parseDigits k.toList none with
    | some i => xs.getD i null
    | Option.none => null
  | _, _ => null

/-- Dotted-path resolution, as in `Result.Get`. -/
def getPath : GJson → List String → GJson
  | g, [] => g
  | g, k :: rest => (g.getKey k).getPath rest

/-- `Result.Get(path)` with a dotted path string. -/
def get (g : GJson) (path : String) : GJson :=
  g.getPath (splitDots path)

end GJson

/-- `schema.ResourceData`: address, attribute tree, and resolved reference
lists keyed by reference-attribute name. -/
inductive ResourceData where
  | mk (address : String) (values : GJson)
      (refs : List (String × List ResourceData))

namespace ResourceData

def address : ResourceData → String
  | mk a _ _ => a

def values : ResourceData → GJson
  | mk _ v _ => v

def refs : ResourceData → List (String × List ResourceData)
  | mk _ _ r => r

/-- `d.Get(path)`. -/
def get (d : ResourceData) (path : String) : GJson :=
  d.values.get path

/-- `d.References(attributeName)`: empty sequence when unresolved or absent. -/
def references (d : ResourceData) (attributeName : String) : List ResourceData :=
  (d.refs.lookup attributeName).getD []

end ResourceData

/-- `schema.UsageData`. -/
structure UsageData where
  address : String
  attributes : List (String × GJson)

namespace UsageData

/-- `u.Get(key)`: the zero (null) result when the key is absent. -/
def get (u : UsageData) (key : String) : GJson :=
  (u.attributes.lookup key).getD GJson.null

end UsageData

/-- `schema.AttributeFilter`. -/
structure AttributeFilter where
  key : String
  value : Option String := none
  valueRegex : Option String := none
deriving DecidableEq

/-- `schema.ProductFilter`. -/
structure ProductFilter where
  vendorName : Option String := none
  region : Option String := none
  service : Option String := none
  productFamily : Option String := none
  attributeFilters : List AttributeFilter := []
deriving DecidableEq

/-- `schema.PriceFilter`. -/
structure PriceFilter where
  purchaseOption : Option String := none
  startUsageAmount : Option String := none
  termOfferingClass : Option String := none
  termLength : Option String := none
  termPurchaseOption : Option String := none
deriving DecidableEq

/-- `schema.CostComponent`. -/
structure CostComponent where
  name : String
  unit : String
  unitMultiplier : Int
  hourlyQuantity : Option Rat := none
  monthlyQuantity : Option Rat := none
  ignoreIfMissingPrice : Bool := false
  productFilter : ProductFilter
  priceFilter : Option PriceFilter := none
deriving DecidableEq

/-- `schema.Resource` (output tree): name, cost components, sub-resources. -/
inductive Resource where
  | mk (name : String) (costComponents : List CostComponent)
      (subResources : List Resource)

namespace Resource

def name : Resource → String
  | mk n _ _ => n

def costComponents : Resource → List CostComponent
  | mk _ c _ => c

def subResources : Resource → List Resource
  | mk _ _ s => s

end Resource

/-- `strPtr`. -/
def strPtr (s : String) : Option String := some s

/-- `decimalPtr`. -/
def decimalPtr (d : Rat) : Option Rat := some d

/-- `strings.Title`: upper-cases every letter that follows a non-letter. -/
def strTitle (s : String) : String :=
  (s.toList.foldl
    (fun p c =>
      (c.isAlpha, p.2.push (if p.1 then c else c.toUpper)))
    (false, "")).2

/-! ## AWS `aws_instance` handler (package `aws`) -/

/-- `defaultEC2InstanceMetricCount`. -/
def defaultEC2InstanceMetricCount : Int := 7

/-- Modelled from the spec: `defaultVolumeSize`, a package-level constant of
the `aws` package defined in a file not present here.  The registry notes and
the spec both state that an unspecified root volume defaults to an 8 GiB
volume, so the constant is 8. -/
def defaultVolumeSize : Int := 8

/-- Modelled from the spec: `ebsVolumeCostComponents`, defined in the `aws`
package's EBS-volume file, which is not present here.  Per the spec's Cost
Component Builder rules it builds the volume's storage component from literal
configuration values: the catalog filter carries the volume API name and the
monthly quantity is the requested size in GiB-equivalent units. -/
def ebsVolumeCostComponents (region volumeAPIName : String)
    (_ioRequests : Option Rat) (gbVal iopsVal : Rat)
    (_unknown : Option Rat) : List CostComponent :=
  [{ name := "Storage"
     unit := "GB"
     unitMultiplier := 1
     monthlyQuantity := decimalPtr gbVal
     productFilter :=
       { vendorName := strPtr "aws"
         region := strPtr region
         service := strPtr "AmazonEC2"
         productFamily := strPtr "Storage"
         attributeFilters :=
           [{ key := "volumeApiName", value := strPtr volumeAPIName },
            { key := "iops", value := strPtr (toString iopsVal.num) }] } }]

/-- `newEbsBlockDevice`. -/
def newEbsBlockDevice (name : String) (d : GJson) (region : String) : Resource :=
  let volumeAPIName :=
    if (d.get "volume_type").existsVal then (d.get "volume_type").asString
    else "gp2"
  let gbVal : Rat :=
    if (d.get "volume_size").existsVal then (d.get "volume_size").asFloat
    else (defaultVolumeSize : Rat)
  let iopsVal : Rat :=
    if (d.get "iops").existsVal then (d.get "iops").asFloat
    else 0
  let unknown : Option Rat := none
  Resource.mk name (ebsVolumeCostComponents region volumeAPIName unknown gbVal iopsVal unknown) []

/-- `newRootBlockDevice`. -/
def newRootBlockDevice (d : GJson) (region : String) : Resource :=
  newEbsBlockDevice "root_block_device" d region

/-- `newEbsBlockDevices`. -/
def newEbsBlockDevices (d : GJson) (region : String) : List Resource :=
  (d.asArray.enum).map fun p =>
    newEbsBlockDevice ("ebs_block_device[" ++ toString p.1 ++ "]") p.2 region

/-- The `fmt.Sprintf("Instance usage (%s, %s, %s)", ...)` format shared by the
on-demand and reserved compute components. -/
def instanceUsageName (osLabel purchaseOptionLabel instanceType : String) : String :=
  "Instance usage (" ++ osLabel ++ ", " ++ purchaseOptionLabel ++ ", " ++ instanceType ++ ")"

/-- `reservedInstanceCostComponent`. -/
def reservedInstanceCostComponent (region osLabel purchaseOptionLabel reservedType
    reservedTerm reservedPaymentOption tenancy instanceType operatingSystem : String)
    (count : Int) : CostComponent :=
  let reservedTermName :=
    if reservedTerm = "1_year" then "1yr"
    else if reservedTerm = "3_year" then "3yr"
    else ""
  let reservedPaymentOptionName :=
    if reservedPaymentOption = "no_upfront" then "No Upfront"
    else if reservedPaymentOption = "partial_upfront" then "Partial Upfront"
    else if reservedPaymentOption = "all_upfront" then "All Upfront"
    else ""
  { name := instanceUsageName osLabel purchaseOptionLabel instanceType
    unit := "hours"
    unitMultiplier := 1
    hourlyQuantity := decimalPtr ((count : Rat))
    productFilter :=
      { vendorName := strPtr "aws"
        region := strPtr region
        service := strPtr "AmazonEC2"
        productFamily := strPtr "Compute Instance"
        attributeFilters :=
          [{ key := "instanceType", value := strPtr instanceType },
           { key := "tenancy", value := strPtr tenancy },
           { key := "operatingSystem", value := strPtr operatingSystem },
           { key := "preInstalledSw", value := strPtr "NA" },
           { key := "capacitystatus", value := strPtr "Used" }] }
    priceFilter := some
      { startUsageAmount := strPtr "0"
        termOfferingClass := some reservedType
        termLength := some reservedTermName
        termPurchaseOption := some reservedPaymentOptionName } }

/-- The operating-system switch of `computeCostComponent`: label, catalog
attribute value, and the warning (if any) for an unrecognized value.  The
documented default is Linux. -/
def osInfoOf (u : Option UsageData) : String × String × List String :=
  match u with
  | some ud =>
    if (ud.get "operating_system").existsVal then
      let os := strToLower ((ud.get "operating_system").asString)
      if os = "windows" then ("Windows", "Windows", [])
      else if os = "rhel" then ("RHEL", "RHEL", [])
      else if os = "suse" then ("SUSE", "SUSE", [])
      else if os = "linux" then ("Linux/UNIX", "Linux", [])
      else ("Linux/UNIX", "Linux",
        ["Unrecognized operating system " ++ os ++ ", defaulting to Linux/UNIX"])
    else ("Linux/UNIX", "Linux", [])
  | none => ("Linux/UNIX", "Linux", [])

/-- The reserved-instance override block of `computeCostComponent`: the
purchase-option label, reserved type, term, and payment option after reading
the usage data. -/
def reservedInfoOf (u : Option UsageData) (purchaseOptionLabel : String) :
    String × String × String × String :=
  match u with
  | some ud =>
    if (ud.get "reserved_instance_type").existsVal then
      ("reserved",
       (ud.get "reserved_instance_type").asString,
       if (ud.get "reserved_instance_term").existsVal then
         (ud.get "reserved_instance_term").asString
       else "",
       if (ud.get "reserved_instance_payment_option").existsVal then
         (ud.get "reserved_instance_payment_option").asString
       else "")
    else (purchaseOptionLabel, "", "", "")
  | none => (purchaseOptionLabel, "", "", "")

/-- `computeCostComponent`.  The `log.Warnf` for an unrecognized operating
system is returned as the second component of the pair. -/
def computeCostComponent (d : ResourceData) (u : Option UsageData)
    (purchaseOption tenancy : String) : CostComponent × List String :=
  let region := (d.get "region").asString
  let instanceType := (d.get "instance_type").asString
  let purchaseOptionLabel0 :=
    if purchaseOption = "on_demand" then "on-demand"
    else if purchaseOption = "spot" then "spot"
    else ""
  let osInfo := osInfoOf u
  let osLabel := osInfo.1
  let operatingSystem := osInfo.2.1
  let warns := osInfo.2.2
  let reservedInfo := reservedInfoOf u purchaseOptionLabel0
  let purchaseOptionLabel := reservedInfo.1
  let reservedIType := reservedInfo.2.1
  let reservedTerm := reservedInfo.2.2.1
  let reservedPaymentOption := reservedInfo.2.2.2
  if reservedIType ≠ "" then
    (reservedInstanceCostComponent region osLabel purchaseOptionLabel reservedIType
      reservedTerm reservedPaymentOption tenancy instanceType operatingSystem 1, warns)
  else
    ({ name := instanceUsageName osLabel purchaseOptionLabel instanceType
       unit := "hours"
       unitMultiplier := 1
       hourlyQuantity := decimalPtr 1
       productFilter :=
         { vendorName := strPtr "aws"
           region := strPtr region
           service := strPtr "AmazonEC2"
           productFamily := strPtr "Compute Instance"
           attributeFilters :=
             [{ key := "instanceType", value := strPtr instanceType },
              { key := "tenancy", value := strPtr tenancy },
              { key := "operatingSystem", value := strPtr operatingSystem },
              { key := "preInstalledSw", value := strPtr "NA" },
              { key := "capacitystatus", value := strPtr "Used" }] }
       priceFilter := some { purchaseOption := some purchaseOption } }, warns)

/-- `ebsOptimizedCostComponent`. -/
def ebsOptimizedCostComponent (d : ResourceData) : CostComponent :=
  let region := (d.get "region").asString
  let instanceType := (d.get "instance_type").asString
  { name := "EBS-optimized usage"
    unit := "hours"
    unitMultiplier := 1
    hourlyQuantity := decimalPtr 1
    ignoreIfMissingPrice := true
    productFilter :=
      { vendorName := strPtr "aws"
        region := strPtr region
        service := strPtr "AmazonEC2"
        productFamily := strPtr "Compute Instance"
        attributeFilters :=
          [{ key := "instanceType", value := strPtr instanceType },
           { key := "usagetype", valueRegex := strPtr "/EBSOptimized/" }] } }

/-- `detailedMonitoringCostComponent`. -/
def detailedMonitoringCostComponent (d : ResourceData) : CostComponent :=
  let region := (d.get "region").asString
  { name := "EC2 detailed monitoring"
    unit := "metrics"
    unitMultiplier := 1
    monthlyQuantity := decimalPtr ((defaultEC2InstanceMetricCount : Rat))
    ignoreIfMissingPrice := true
    productFilter :=
      { vendorName := strPtr "aws"
        region := strPtr region
        service := strPtr "AmazonCloudWatch"
        productFamily := strPtr "Metric" }
    priceFilter := some { startUsageAmount := strPtr "0" } }

/-- `cpuCreditsCostComponent`: `nil` unless the resolved CPU-credits mode is
"unlimited", which is the default for the `t3.` and `t4g.` families. -/
def cpuCreditsCostComponent (d : ResourceData) : Option CostComponent :=
  let region := (d.get "region").asString
  let instanceType := (d.get "instance_type").asString
  let cpuCredits0 := (d.get "credit_specification.0.cpu_credits").asString
  let cpuCredits :=
    if cpuCredits0 = "" ∧
        (strStartsWith instanceType "t3." = true ∨ strStartsWith instanceType "t4g." = true) then
      "unlimited"
    else cpuCredits0
  if cpuCredits ≠ "unlimited" then none
  else
    let familyName := ((splitDots instanceType).headD "")
    some
      { name := "CPU credits"
        unit := "vCPU-hours"
        unitMultiplier := 1
        productFilter :=
          { vendorName := strPtr "aws"
            region := strPtr region
            service := strPtr "AmazonEC2"
            productFamily := strPtr "CPU Credits"
            attributeFilters :=
              [{ key := "operatingSystem", value := strPtr "Linux" },
               { key := "usagetype",
                 valueRegex := strPtr ("/CPUCredits:" ++ familyName ++ "$/") }] } }

/-- `NewInstance`: the `aws_instance` handler.  Warnings emitted through
`log.Warnf` are collected in the second component. -/
def NewInstance (d : ResourceData) (u : Option UsageData) :
    Option Resource × List String :=
  if (d.get "tenancy").asString = "host" then
    (none,
     ["Skipping resource " ++ d.address ++
      ". Infracost currently does not support host tenancy for AWS EC2 instances"])
  else
    let tenancy :=
      if (d.get "tenancy").asString = "dedicated" then "Dedicated" else "Shared"
    let region := (d.get "region").asString
    let subResources :=
      [newRootBlockDevice (d.get "root_block_device.0") region] ++
        newEbsBlockDevices (d.get "ebs_block_device") region
    let compute := computeCostComponent d u "on_demand" tenancy
    let costComponents := [compute.1]
    let costComponents :=
      if (d.get "ebs_optimized").asBool then
        costComponents ++ [ebsOptimizedCostComponent d]
      else costComponents
    let costComponents :=
      if (d.get "monitoring").asBool then
        costComponents ++ [detailedMonitoringCostComponent d]
      else costComponents
    let costComponents :=
      match cpuCreditsCostComponent d with
      | some c => costComponents ++ [c]
      | none => costComponents
    (some (Resource.mk d.address costComponents subResources), compute.2)

/-! ## Azure `azurerm_key_vault_key` handler (package `azure`) -/

/-- Modelled from the spec: `usage.CalculateTierBuckets` (package
`internal/usage`, not present here).  Splits a total across tier widths:
tier i receives `min(remaining, width_i)`, the remainder cascades, and the
final unbounded bucket absorbs what exceeds all finite widths, so the output
has length `len(widths)+1` and sums to the total. -/
def CalculateTierBuckets (total : Rat) (tierLimits : List Int) : List Rat :=
  match tierLimits with
  | [] => [total]
  | l :: rest =>
    min total ((l : Rat)) :: CalculateTierBuckets (total - min total ((l : Rat))) rest

/-- The `if u != nil && u.Get(key).Exists() { x = decimalPtr(decimal.NewFromInt(u.Get(key).Int())) }`
idiom used for every usage quantity in `NewAzureKeyVaultKey`. -/
def usageIntVal (u : Option UsageData) (key : String) : Option Rat :=
  match u with
  | some ud =>
    if (ud.get key).existsVal then decimalPtr (((ud.get key).asInt : Rat))
    else none
  | none => none

/-- `vaultKeysCostComponent`: the quantity, when present, is pre-divided by
the transaction-block multiplier. -/
def vaultKeysCostComponent (name location unit skuName meterName startUsage : String)
    (quantity : Option Rat) (multi : Int) : CostComponent :=
  let quantity :=
    match quantity with
    | some q => decimalPtr (q / ((multi : Rat)))
    | none => none
  { name := name
    unit := unit
    unitMultiplier := 1
    monthlyQuantity := quantity
    productFilter :=
      { vendorName := strPtr "azure"
        region := strPtr location
        service := strPtr "Key Vault"
        productFamily := strPtr "Security"
        attributeFilters :=
          [{ key := "productName", value := strPtr "Key Vault" },
           { key := "skuName", value := strPtr skuName },
           { key := "meterName", value := strPtr meterName }] }
    priceFilter := some
      { purchaseOption := strPtr "Consumption"
        startUsageAmount := strPtr startUsage } }

/-- `NewAzureKeyVaultKey`: the `azurerm_key_vault_key` handler.  The
unguarded `keyVault[0]` index on the resolved reference list is embedded as
`.error` (a Go runtime panic) when `References("key_vault_id")` is empty;
warnings are returned in the second component of the `.ok` pair. -/
def NewAzureKeyVaultKey (d : ResourceData) (u : Option UsageData) :
    Except String (Option Resource × List String) :=
  match d.references "key_vault_id" with
  | [] => .error "runtime error: index out of range [0] with length 0"
  | keyVault0 :: _ =>
    let location := (keyVault0.get "location").asString
    if location = "" then
      .ok (none,
        ["Skipping resource " ++ d.address ++
         ". Infracost currently cannot find the location for this resource."])
    else
      let skuName := strTitle ((keyVault0.get "sku_name").asString)
      let keyType := (d.get "key_type").asString
      let keySize :=
        if !(d.get "key_size").isNull then (d.get "key_size").asString else ""
      let unit := "10K transactions"
      let secretsTransactions := usageIntVal u "monthly_secrets_operations"
      let certificateRenewals := usageIntVal u "monthly_certificate_renewal_requests"
      let certificateOperations := usageIntVal u "monthly_certificate_other_operations"
      let keyRotationRenewals := usageIntVal u "monthly_key_rotation_renewals"
      let baseComponents :=
        [vaultKeysCostComponent "Secrets operations" location unit skuName
           "Operations" "0" secretsTransactions 10000,
         vaultKeysCostComponent "Certificate operations" location "renewals" skuName
           "Certificate Renewal Request" "0" certificateRenewals 1,
         vaultKeysCostComponent "Certificate operations" location unit skuName
           "Operations" "0" certificateOperations 10000,
         vaultKeysCostComponent "Storage key rotation" location "renewals" skuName
           "Secret Renewal" "0" keyRotationRenewals 1]
      let softwareComponents :=
        if strEndsWith keyType "HSM" = false then
          let softwareProtectedTransactions :=
            usageIntVal u "monthly_protected_keys_operations"
          if keyType = "RSA" ∧ keySize = "2048" then
            [vaultKeysCostComponent "Software-protected keys" location unit skuName
               "Operations" "0" softwareProtectedTransactions 10000]
          else
            [vaultKeysCostComponent "Software-protected keys" location unit skuName
               "Advanced Key Operations" "0" softwareProtectedTransactions 10000]
        else []
      let hsmSection :=
        if strEndsWith keyType "HSM" = true ∧ skuName = "Premium" then
          let keyUnit := "months"
          let keysPart :=
            match usageIntVal u "hsm_protected_keys" with
            | some protectedKeys =>
              if keyType = "RSA-HSM" ∧ keySize = "2048" then
                [vaultKeysCostComponent "HSM-protected keys" location keyUnit skuName
                   "Premium HSM-protected RSA 2048-bit key" "0" (some protectedKeys) 1]
              else
                let keysQuantities := CalculateTierBuckets protectedKeys [250, 1250, 2500]
                [vaultKeysCostComponent "HSM-protected keys (first 250)" location
                   keyUnit skuName "Premium HSM-protected Advanced Key" "0"
                   (some (keysQuantities.getD 0 0)) 1] ++
                (if keysQuantities.getD 1 0 > 0 then
                  [vaultKeysCostComponent "HSM-protected keys (next 1250)" location
                     keyUnit skuName "Premium HSM-protected Advanced Key" "250"
                     (some (keysQuantities.getD 1 0)) 1]
                 else []) ++
                (if keysQuantities.getD 2 0 > 0 then
                  [vaultKeysCostComponent "HSM-protected keys (next 2500)" location
                     keyUnit skuName "Premium HSM-protected Advanced Key" "1500"
                     (some (keysQuantities.getD 2 0)) 1]
                 else []) ++
                (if keysQuantities.getD 3 0 > 0 then
                  [vaultKeysCostComponent "HSM-protected keys (over 4000)" location
                     keyUnit skuName "Premium HSM-protected Advanced Key" "4000"
                     (some (keysQuantities.getD 3 0)) 1]
                 else [])
            | none =>
              -- In the source the mutable `meterName` still holds
              -- "Secret Renewal", last assigned for the storage-key-rotation
              -- component, when this no-usage branch runs.
              [vaultKeysCostComponent "HSM-protected keys" location keyUnit skuName
                 "Secret Renewal" "0" none 1]
          let opsPart :=
            match usageIntVal u "monthly_protected_keys_operations" with
            | some hsmProtectedTransactions =>
              if keyType = "RSA" ∧ keySize = "2048" then
                [vaultKeysCostComponent "HSM-protected keys" location unit skuName
                   "Operations" "0" (some hsmProtectedTransactions) 10000]
              else
                [vaultKeysCostComponent "HSM-protected keys" location unit skuName
                   "Advanced Key Operations" "0" (some hsmProtectedTransactions) 10000]
            | none => []
          keysPart ++ opsPart
        else []
      let costComponents := baseComponents ++ softwareComponents ++ hsmSection
      .ok (some (Resource.mk d.address costComponents []), [])

/-! ## Example inputs used by the witnesses -/

/-- A key vault resource with the given location and sku name. -/
def exampleKeyVault (location skuName : String) : ResourceData :=
  ResourceData.mk "azurerm_key_vault.example"
    (GJson.obj [("location", GJson.str location), ("sku_name", GJson.str skuName)]) []

/-- A key vault key resource with the given key type, optional key size, and
resolved `key_vault_id` references. -/
def exampleKeyVaultKey (keyType : String) (keySize : Option Int)
    (vaults : List ResourceData) : ResourceData :=
  ResourceData.mk "azurerm_key_vault_key.example"
    (GJson.obj ([("key_type", GJson.str keyType)] ++
      (match keySize with
       | some n => [("key_size", GJson.num ((n : Rat)))]
       | none => [])))
    [("key_vault_id", vaults)]

/-- An `aws_instance` resource with the given attributes. -/
def exampleInstance (attrs : List (String × GJson)) : ResourceData :=
  ResourceData.mk "aws_instance.example" (GJson.obj attrs) []

/-! ## Claim theorems -/

/-- C1: the claim states that with an unresolved or absent `key_vault_id`
reference (`References` returning an empty sequence) the handler defensively
checks existence and skips the resource without panicking.  The code does the
opposite: it indexes element 0 of the empty reference sequence before any
check, a Go runtime panic, embedded here as the runtime error result. -/
theorem newAzureKeyVaultKey_panics_on_empty_references :
    NewAzureKeyVaultKey (exampleKeyVaultKey "RSA" (some 2048) []) none =
      .error "runtime error: index out of range [0] with length 0" := rfl

/-- C2: a `tenancy = "host"` instance makes `NewInstance` return nil with a
warning naming the resource address, and a key vault key whose referenced
vault has an empty location makes `NewAzureKeyVaultKey` return nil with a
warning naming the resource address; in both cases the resource is entirely
skipped. -/
theorem handlers_skip_unsupported_with_warning :
    (∀ (d : ResourceData) (u : Option UsageData),
        (d.get "tenancy").asString = "host" →
        (NewInstance d u).1 = none ∧
          (NewInstance d u).2 =
            ["Skipping resource " ++ d.address ++
             ". Infracost currently does not support host tenancy for AWS EC2 instances"]) ∧
    (∀ (d : ResourceData) (u : Option UsageData) (kv : ResourceData)
        (rest : List ResourceData),
        d.references "key_vault_id" = kv :: rest →
        (kv.get "location").asString = "" →
        NewAzureKeyVaultKey d u =
          .ok (none,
            ["Skipping resource " ++ d.address ++
             ". Infracost currently cannot find the location for this resource."])) := by
  constructor
  · intro d u h
    constructor <;> simp [NewInstance, h]
  · intro d u kv rest h hloc
    simp [NewAzureKeyVaultKey, h, hloc]

/-- C2 witness: both skip paths at concrete inputs. -/
theorem handlers_skip_unsupported_with_warning_witness :
    ((exampleInstance [("tenancy", GJson.str "host")]).get "tenancy").asString = "host" ∧
    (NewInstance (exampleInstance [("tenancy", GJson.str "host")]) none).1 = none ∧
    NewAzureKeyVaultKey (exampleKeyVaultKey "RSA" (some 2048) [exampleKeyVault "" "premium"]) none =
      .ok (none,
        ["Skipping resource azurerm_key_vault_key.example. Infracost currently cannot find the location for this resource."]) :=
  ⟨by decide,
   (handlers_skip_unsupported_with_warning.1
     (exampleInstance [("tenancy", GJson.str "host")]) none (by decide)).1,
   handlers_skip_unsupported_with_warning.2
     (exampleKeyVaultKey "RSA" (some 2048) [exampleKeyVault "" "premium"]) none
     (exampleKeyVault "" "premium") [] rfl (by decide)⟩

/-- C3: when the root block device specifies neither `volume_type` nor
`volume_size`, the synthesized root-volume sub-resource carries volume type
`gp2` and size 8 (GiB-equivalent units). -/
theorem root_block_device_defaults_to_gp2_8 :
    ∀ (d : ResourceData) (u : Option UsageData),
      (d.get "tenancy").asString ≠ "host" →
      ((d.get "root_block_device.0").get "volume_type").existsVal = false →
      ((d.get "root_block_device.0").get "volume_size").existsVal = false →
      ∃ r sub, (NewInstance d u).1 = some r ∧
        r.subResources.head? = some sub ∧
        sub.name = "root_block_device" ∧
        ∃ c ∈ sub.costComponents,
          AttributeFilter.mk "volumeApiName" (some "gp2") none ∈
            c.productFilter.attributeFilters ∧
          c.monthlyQuantity = some 8 := by
  intro d u h1 h2 h3
  simp [NewInstance, h1, newRootBlockDevice, newEbsBlockDevice, h2, h3,
    ebsVolumeCostComponents, Resource.subResources, Resource.name,
    Resource.costComponents, strPtr, decimalPtr, defaultVolumeSize]

/-- C3 witness: an instance resource with no root block device gets the
default gp2 8-GiB root volume. -/
theorem root_block_device_defaults_to_gp2_8_witness :
    ((exampleInstance [("instance_type", GJson.str "m5.large")]).get "tenancy").asString ≠ "host" ∧
    (((exampleInstance [("instance_type", GJson.str "m5.large")]).get "root_block_device.0").get "volume_type").existsVal = false ∧
    (((exampleInstance [("instance_type", GJson.str "m5.large")]).get "root_block_device.0").get "volume_size").existsVal = false ∧
    ∃ r sub,
      (NewInstance (exampleInstance [("instance_type", GJson.str "m5.large")]) none).1 = some r ∧
      r.subResources.head? = some sub ∧
      sub.name = "root_block_device" ∧
      ∃ c ∈ sub.costComponents,
        AttributeFilter.mk "volumeApiName" (some "gp2") none ∈
          c.productFilter.attributeFilters ∧
        c.monthlyQuantity = some 8 :=
  ⟨by decide, by decide, by decide,
   root_block_device_defaults_to_gp2_8
     (exampleInstance [("instance_type", GJson.str "m5.large")]) none
     (by decide) (by decide) (by decide)⟩

/-- Helper: an "Instance usage (...)" name is never the CPU-credits name. -/
theorem instanceUsageName_ne_cpu_credits (a b c : String) :
    instanceUsageName a b c ≠ "CPU credits" := by
  intro h
  have hl := congrArg String.length h
  simp only [instanceUsageName, String.length_append] at hl
  have h1 : ("Instance usage (").length = 16 := rfl
  have h2 : (", ").length = 2 := rfl
  have h3 : (")").length = 1 := rfl
  have h4 : ("CPU credits").length = 11 := rfl
  omega

/-- Helper: whichever branch is taken, the compute component's name has the
"Instance usage" format and is therefore never "CPU credits". -/
theorem computeCostComponent_name_ne (d : ResourceData) (u : Option UsageData)
    (p t : String) : (computeCostComponent d u p t).1.name ≠ "CPU credits" := by
  simp only [computeCostComponent]
  split <;>
    first
      | exact instanceUsageName_ne_cpu_credits _ _ _
      | (split <;>
          first
            | exact instanceUsageName_ne_cpu_credits _ _ _
            | (split <;> exact instanceUsageName_ne_cpu_credits _ _ _))

/-- C4: with no `credit_specification.0.cpu_credits` value, a CPU-credits
component exists exactly when the instance type starts with the burstable
prefixes "t3." or "t4g."; otherwise `cpuCreditsCostComponent` is nil and
`NewInstance` emits no CPU-credits component. -/
theorem cpu_credits_component_iff_burstable :
    ∀ (d : ResourceData) (u : Option UsageData),
      (d.get "credit_specification.0.cpu_credits").asString = "" →
      ((cpuCreditsCostComponent d).isSome = true ↔
        (strStartsWith ((d.get "instance_type").asString) "t3." = true ∨
         strStartsWith ((d.get "instance_type").asString) "t4g." = true)) ∧
      (¬(strStartsWith ((d.get "instance_type").asString) "t3." = true ∨
         strStartsWith ((d.get "instance_type").asString) "t4g." = true) →
        cpuCreditsCostComponent d = none ∧
        ∀ r, (NewInstance d u).1 = some r →
          ∀ c ∈ r.costComponents, c.name ≠ "CPU credits") := by
  intro d u hc
  have hnone : ¬(strStartsWith ((d.get "instance_type").asString) "t3." = true ∨
      strStartsWith ((d.get "instance_type").asString) "t4g." = true) →
      cpuCreditsCostComponent d = none := by
    intro hb
    simp [cpuCreditsCostComponent, hc, hb]
  constructor
  · constructor
    · intro hs
      by_contra hb
      rw [hnone hb] at hs
      simp at hs
    · intro hb
      simp [cpuCreditsCostComponent, hc, hb]
  · intro hb
    refine ⟨hnone hb, ?_⟩
    intro r hr c hcmem
    by_cases ht : (d.get "tenancy").asString = "host"
    · simp [NewInstance, ht] at hr
    · rw [NewInstance] at hr
      rw [if_neg ht] at hr
      simp only [hnone hb] at hr
      simp only [Option.some.injEq] at hr
      subst hr
      simp only [Resource.costComponents] at hcmem
      have hcases : c = (computeCostComponent d u "on_demand"
            (if (d.get "tenancy").asString = "dedicated" then "Dedicated" else "Shared")).1 ∨
          c = ebsOptimizedCostComponent d ∨ c = detailedMonitoringCostComponent d := by
        split at hcmem <;> split at hcmem <;> simp at hcmem <;> tauto
      rcases hcases with rfl | rfl | rfl
      · exact computeCostComponent_name_ne d u "on_demand" _
      · show "EBS-optimized usage" ≠ "CPU credits"
        decide
      · show "EC2 detailed monitoring" ≠ "CPU credits"
        decide

/-- C4 witness: a `t3.micro` with no credit specification has a CPU-credits
component; an `m5.large` with no credit specification has none. -/
theorem cpu_credits_component_iff_burstable_witness :
    ((exampleInstance [("instance_type", GJson.str "t3.micro")]).get "credit_specification.0.cpu_credits").asString = "" ∧
    ((exampleInstance [("instance_type", GJson.str "m5.large")]).get "credit_specification.0.cpu_credits").asString = "" ∧
    ((cpuCreditsCostComponent (exampleInstance [("instance_type", GJson.str "t3.micro")])).isSome = true ↔
      (strStartsWith (((exampleInstance [("instance_type", GJson.str "t3.micro")]).get "instance_type").asString) "t3." = true ∨
       strStartsWith (((exampleInstance [("instance_type", GJson.str "t3.micro")]).get "instance_type").asString) "t4g." = true)) ∧
    (¬(strStartsWith (((exampleInstance [("instance_type", GJson.str "m5.large")]).get "instance_type").asString) "t3." = true ∨
       strStartsWith (((exampleInstance [("instance_type", GJson.str "m5.large")]).get "instance_type").asString) "t4g." = true) →
      cpuCreditsCostComponent (exampleInstance [("instance_type", GJson.str "m5.large")]) = none ∧
      ∀ r, (NewInstance (exampleInstance [("instance_type", GJson.str "m5.large")]) none).1 = some r →
        ∀ c ∈ r.costComponents, c.name ≠ "CPU credits") :=
  ⟨by decide, by decide,
   (cpu_credits_component_iff_burstable
     (exampleInstance [("instance_type", GJson.str "t3.micro")]) none (by decide)).1,
   (cpu_credits_component_iff_burstable
     (exampleInstance [("instance_type", GJson.str "m5.large")]) none (by decide)).2⟩

/-- C9: both handlers are pure functions of their resource and usage data
views: two invocations on identical inputs produce structurally identical
results. -/
theorem handlers_deterministic :
    ∀ (d : ResourceData) (u : Option UsageData),
      NewInstance d u = NewInstance d u ∧
        NewAzureKeyVaultKey d u = NewAzureKeyVaultKey d u :=
  fun _ _ => ⟨rfl, rfl⟩

/-- C10: an HSM-suffixed key type on a vault whose title-cased sku is not
"Premium" gets neither the software-protected component nor any
HSM-protected component: exactly the four base components remain, for every
usage data. -/
theorem hsm_non_premium_base_components_only :
    ∀ (d : ResourceData) (u : Option UsageData) (kv : ResourceData)
      (rest : List ResourceData),
      d.references "key_vault_id" = kv :: rest →
      (kv.get "location").asString ≠ "" →
      strEndsWith ((d.get "key_type").asString) "HSM" = true →
      strTitle ((kv.get "sku_name").asString) ≠ "Premium" →
      ∃ r ws, NewAzureKeyVaultKey d u = .ok (some r, ws) ∧
        r.costComponents.map (fun c => c.name) =
          ["Secrets operations", "Certificate operations", "Certificate operations",
           "Storage key rotation"] := by
  intro d u kv rest href hloc hkt hsku
  simp [NewAzureKeyVaultKey, href, hloc, hkt, hsku, vaultKeysCostComponent,
    Resource.costComponents]

/-- C10 witness: an `RSA-HSM` key on a standard-tier vault, even with HSM
usage data present, yields only the four base components. -/
theorem hsm_non_premium_base_components_only_witness :
    (exampleKeyVaultKey "RSA-HSM" (some 2048) [exampleKeyVault "eastus" "standard"]).references "key_vault_id" =
        exampleKeyVault "eastus" "standard" :: [] ∧
    ((exampleKeyVault "eastus" "standard").get "location").asString ≠ "" ∧
    strEndsWith (((exampleKeyVaultKey "RSA-HSM" (some 2048) [exampleKeyVault "eastus" "standard"]).get "key_type").asString) "HSM" = true ∧
    strTitle (((exampleKeyVault "eastus" "standard").get "sku_name").asString) ≠ "Premium" ∧
    ∃ r ws,
      NewAzureKeyVaultKey (exampleKeyVaultKey "RSA-HSM" (some 2048) [exampleKeyVault "eastus" "standard"])
          (some ⟨"azurerm_key_vault_key.example", [("hsm_protected_keys", GJson.num 300)]⟩) =
        .ok (some r, ws) ∧
      r.costComponents.map (fun c => c.name) =
        ["Secrets operations", "Certificate operations", "Certificate operations",
         "Storage key rotation"] :=
  ⟨rfl, by decide, by decide, by decide,
   hsm_non_premium_base_components_only
     (exampleKeyVaultKey "RSA-HSM" (some 2048) [exampleKeyVault "eastus" "standard"])
     (some ⟨"azurerm_key_vault_key.example", [("hsm_protected_keys", GJson.num 300)]⟩)
     (exampleKeyVault "eastus" "standard") [] rfl (by decide) (by decide) (by decide)⟩
/-- C5: usage data with a non-empty reserved_instance_type plus term and
payment option makes `computeCostComponent` return the reserved component:
price filter with term-offering-class, term-length and term-purchase-option
set, no purchase-option field, and the "reserved" label in the name. -/
theorem reserved_usage_gives_reserved_component :
    ∀ (d : ResourceData) (ud : UsageData) (p t : String),
      (ud.get "reserved_instance_type").existsVal = true →
      (ud.get "reserved_instance_type").asString ≠ "" →
      (ud.get "reserved_instance_term").existsVal = true →
      (ud.get "reserved_instance_payment_option").existsVal = true →
      (∃ osl, (computeCostComponent d (some ud) p t).1.name =
        instanceUsageName osl "reserved" ((d.get "instance_type").asString)) ∧
      ∃ pf, (computeCostComponent d (some ud) p t).1.priceFilter = some pf ∧
        pf.purchaseOption = none ∧
        pf.termOfferingClass = some ((ud.get "reserved_instance_type").asString) ∧
        (∃ tl, pf.termLength = some tl) ∧
        (∃ tp, pf.termPurchaseOption = some tp) := by
  intro d ud p t hex hne hterm hpay
  have hc : (computeCostComponent d (some ud) p t).1 =
      reservedInstanceCostComponent ((d.get "region").asString)
        ((osInfoOf (some ud)).1) "reserved"
        ((ud.get "reserved_instance_type").asString)
        ((ud.get "reserved_instance_term").asString)
        ((ud.get "reserved_instance_payment_option").asString)
        t ((d.get "instance_type").asString) ((osInfoOf (some ud)).2.1) 1 := by
    simp [computeCostComponent, reservedInfoOf, hex, hterm, hpay, hne]
  rw [hc]
  constructor
  · exact ⟨(osInfoOf (some ud)).1, rfl⟩
  · exact ⟨_, rfl, rfl, rfl, ⟨_, rfl⟩, ⟨_, rfl⟩⟩

/-- C8: an operating_system usage value that lower-cases to none of
windows/rhel/suse/linux produces a warning, falls back to Linux (label
"Linux/UNIX", catalog attribute operatingSystem = "Linux"), and still
returns a cost component. -/
theorem unknown_os_defaults_to_linux :
    ∀ (d : ResourceData) (ud : UsageData) (p t : String),
      (ud.get "operating_system").existsVal = true →
      strToLower ((ud.get "operating_system").asString) ≠ "windows" →
      strToLower ((ud.get "operating_system").asString) ≠ "rhel" →
      strToLower ((ud.get "operating_system").asString) ≠ "suse" →
      strToLower ((ud.get "operating_system").asString) ≠ "linux" →
      (computeCostComponent d (some ud) p t).2 =
        ["Unrecognized operating system " ++
         strToLower ((ud.get "operating_system").asString) ++
         ", defaulting to Linux/UNIX"] ∧
      (∃ pol, (computeCostComponent d (some ud) p t).1.name =
        instanceUsageName "Linux/UNIX" pol ((d.get "instance_type").asString)) ∧
      AttributeFilter.mk "operatingSystem" (some "Linux") none ∈
        (computeCostComponent d (some ud) p t).1.productFilter.attributeFilters := by
  intro d ud p t hex h1 h2 h3 h4
  have hos : osInfoOf (some ud) =
      ("Linux/UNIX", "Linux",
       ["Unrecognized operating system " ++
        strToLower ((ud.get "operating_system").asString) ++
        ", defaulting to Linux/UNIX"]) := by
    simp [osInfoOf, hex, h1, h2, h3, h4]
  simp only [computeCostComponent, hos]
  split_ifs <;>
    (refine ⟨rfl, ⟨_, rfl⟩, ?_⟩; simp [reservedInstanceCostComponent, strPtr])

/-- C5 witness: the reserved path at a concrete usage override. -/
theorem reserved_usage_gives_reserved_component_witness :
    ((UsageData.mk "aws_instance.example"
        [("reserved_instance_type", GJson.str "standard"),
         ("reserved_instance_term", GJson.str "1_year"),
         ("reserved_instance_payment_option", GJson.str "no_upfront")]).get
        "reserved_instance_type").existsVal = true ∧
    (∃ osl, (computeCostComponent (exampleInstance [("instance_type", GJson.str "t3.micro")])
        (some (UsageData.mk "aws_instance.example"
          [("reserved_instance_type", GJson.str "standard"),
           ("reserved_instance_term", GJson.str "1_year"),
           ("reserved_instance_payment_option", GJson.str "no_upfront")]))
        "on_demand" "Shared").1.name =
      instanceUsageName osl "reserved"
        (((exampleInstance [("instance_type", GJson.str "t3.micro")]).get "instance_type").asString)) ∧
    ∃ pf, (computeCostComponent (exampleInstance [("instance_type", GJson.str "t3.micro")])
        (some (UsageData.mk "aws_instance.example"
          [("reserved_instance_type", GJson.str "standard"),
           ("reserved_instance_term", GJson.str "1_year"),
           ("reserved_instance_payment_option", GJson.str "no_upfront")]))
        "on_demand" "Shared").1.priceFilter = some pf ∧
      pf.purchaseOption = none ∧
      pf.termOfferingClass = some (((UsageData.mk "aws_instance.example"
          [("reserved_instance_type", GJson.str "standard"),
           ("reserved_instance_term", GJson.str "1_year"),
           ("reserved_instance_payment_option", GJson.str "no_upfront")]).get
          "reserved_instance_type").asString) ∧
      (∃ tl, pf.termLength = some tl) ∧
      (∃ tp, pf.termPurchaseOption = some tp) :=
  ⟨by decide,
   (reserved_usage_gives_reserved_component
     (exampleInstance [("instance_type", GJson.str "t3.micro")])
     (UsageData.mk "aws_instance.example"
       [("reserved_instance_type", GJson.str "standard"),
        ("reserved_instance_term", GJson.str "1_year"),
        ("reserved_instance_payment_option", GJson.str "no_upfront")])
     "on_demand" "Shared" (by decide) (by decide) (by decide) (by decide)).1,
   (reserved_usage_gives_reserved_component
     (exampleInstance [("instance_type", GJson.str "t3.micro")])
     (UsageData.mk "aws_instance.example"
       [("reserved_instance_type", GJson.str "standard"),
        ("reserved_instance_term", GJson.str "1_year"),
        ("reserved_instance_payment_option", GJson.str "no_upfront")])
     "on_demand" "Shared" (by decide) (by decide) (by decide) (by decide)).2⟩

/-- C8 witness: the fallback at the concrete unrecognized value "Ubuntu". -/
theorem unknown_os_defaults_to_linux_witness :
    ((UsageData.mk "aws_instance.example" [("operating_system", GJson.str "Ubuntu")]).get
        "operating_system").existsVal = true ∧
    (computeCostComponent (exampleInstance [("instance_type", GJson.str "t3.micro")])
        (some (UsageData.mk "aws_instance.example" [("operating_system", GJson.str "Ubuntu")]))
        "on_demand" "Shared").2 =
      ["Unrecognized operating system " ++
       strToLower (((UsageData.mk "aws_instance.example" [("operating_system", GJson.str "Ubuntu")]).get
         "operating_system").asString) ++
       ", defaulting to Linux/UNIX"] ∧
    (∃ pol, (computeCostComponent (exampleInstance [("instance_type", GJson.str "t3.micro")])
        (some (UsageData.mk "aws_instance.example" [("operating_system", GJson.str "Ubuntu")]))
        "on_demand" "Shared").1.name =
      instanceUsageName "Linux/UNIX" pol
        (((exampleInstance [("instance_type", GJson.str "t3.micro")]).get "instance_type").asString)) ∧
    AttributeFilter.mk "operatingSystem" (some "Linux") none ∈
      (computeCostComponent (exampleInstance [("instance_type", GJson.str "t3.micro")])
        (some (UsageData.mk "aws_instance.example" [("operating_system", GJson.str "Ubuntu")]))
        "on_demand" "Shared").1.productFilter.attributeFilters :=
  ⟨by decide,
   unknown_os_defaults_to_linux
     (exampleInstance [("instance_type", GJson.str "t3.micro")])
     (UsageData.mk "aws_instance.example" [("operating_system", GJson.str "Ubuntu")])
     "on_demand" "Shared" (by decide) (by decide) (by decide) (by decide) (by decide)⟩
/-- C7: a vault-keys component's monthly quantity is nil (not zero) when the
defining usage value is absent, and is the usage value divided exactly by the
block-size multiplier when present; at the handler's first call site the
Secrets-operations component gets nil without `monthly_secrets_operations`
and the value divided by 10000 with it. -/
theorem vault_keys_quantity_nil_or_divided :
    (∀ (name location unit skuName meterName startUsage : String) (multi : Int),
        (vaultKeysCostComponent name location unit skuName meterName startUsage
          none multi).monthlyQuantity = none) ∧
    (∀ (name location unit skuName meterName startUsage : String) (q : Rat) (multi : Int),
        (vaultKeysCostComponent name location unit skuName meterName startUsage
          (some q) multi).monthlyQuantity = some (q / ((multi : Rat)))) ∧
    (∀ (d : ResourceData) (u : Option UsageData) (kv : ResourceData)
        (rest : List ResourceData),
        d.references "key_vault_id" = kv :: rest →
        (kv.get "location").asString ≠ "" →
        ((u = none ∨ ∃ ud, u = some ud ∧
            (ud.get "monthly_secrets_operations").existsVal = false) →
          ∃ r ws, NewAzureKeyVaultKey d u = .ok (some r, ws) ∧
            (r.costComponents.map fun c => c.monthlyQuantity).head? = some none) ∧
        (∀ ud, u = some ud →
          (ud.get "monthly_secrets_operations").existsVal = true →
          ∃ r ws, NewAzureKeyVaultKey d u = .ok (some r, ws) ∧
            (r.costComponents.map fun c => c.monthlyQuantity).head? =
              some (some ((((ud.get "monthly_secrets_operations").asInt : Int) : Rat) / 10000)))) := by
  refine ⟨fun _ _ _ _ _ _ _ => rfl, fun _ _ _ _ _ _ _ _ => rfl, ?_⟩
  intro d u kv rest href hloc
  constructor
  · intro hu
    have habs : usageIntVal u "monthly_secrets_operations" = none := by
      rcases hu with rfl | ⟨ud, rfl, hex⟩
      · rfl
      · simp [usageIntVal, hex]
    simp [NewAzureKeyVaultKey, href, hloc, habs, vaultKeysCostComponent,
      Resource.costComponents]
  · intro ud hu hex
    subst hu
    have hval : usageIntVal (some ud) "monthly_secrets_operations" =
        some ((((ud.get "monthly_secrets_operations").asInt : Int) : Rat)) := by
      simp [usageIntVal, hex, decimalPtr]
    simp [NewAzureKeyVaultKey, href, hloc, hval, vaultKeysCostComponent,
      Resource.costComponents, decimalPtr]

/-- C7 witness: the Secrets-operations quantity is nil with no usage data and
is the value divided by 10000 with `monthly_secrets_operations` present. -/
theorem vault_keys_quantity_nil_or_divided_witness :
    (exampleKeyVaultKey "RSA" (some 2048) [exampleKeyVault "eastus" "premium"]).references "key_vault_id" =
        exampleKeyVault "eastus" "premium" :: [] ∧
    ((exampleKeyVault "eastus" "premium").get "location").asString ≠ "" ∧
    (∃ r ws,
      NewAzureKeyVaultKey (exampleKeyVaultKey "RSA" (some 2048) [exampleKeyVault "eastus" "premium"]) none =
        .ok (some r, ws) ∧
      (r.costComponents.map fun c => c.monthlyQuantity).head? = some none) ∧
    (∃ r ws,
      NewAzureKeyVaultKey (exampleKeyVaultKey "RSA" (some 2048) [exampleKeyVault "eastus" "premium"])
          (some (UsageData.mk "azurerm_key_vault_key.example"
            [("monthly_secrets_operations", GJson.num 25000)])) =
        .ok (some r, ws) ∧
      (r.costComponents.map fun c => c.monthlyQuantity).head? =
        some (some (((((UsageData.mk "azurerm_key_vault_key.example"
          [("monthly_secrets_operations", GJson.num 25000)]).get
            "monthly_secrets_operations").asInt : Int) : Rat) / 10000))) :=
  ⟨rfl, by decide,
   (vault_keys_quantity_nil_or_divided.2.2
     (exampleKeyVaultKey "RSA" (some 2048) [exampleKeyVault "eastus" "premium"]) none
     (exampleKeyVault "eastus" "premium") [] rfl (by decide)).1 (Or.inl rfl),
   (vault_keys_quantity_nil_or_divided.2.2
     (exampleKeyVaultKey "RSA" (some 2048) [exampleKeyVault "eastus" "premium"])
     (some (UsageData.mk "azurerm_key_vault_key.example"
       [("monthly_secrets_operations", GJson.num 25000)]))
     (exampleKeyVault "eastus" "premium") [] rfl (by decide)).2
     (UsageData.mk "azurerm_key_vault_key.example"
       [("monthly_secrets_operations", GJson.num 25000)]) rfl (by decide)⟩
/-- C6: for an HSM key type on a Premium vault with `hsm_protected_keys`
usage (outside the RSA-HSM/2048 special case), the "months" components are
exactly: the first tier bucket unconditionally (even at zero quantity), then
one component per later bucket only when that bucket is strictly positive,
with start-usage amounts "0", "250", "1500", "4000" in ascending order. -/
theorem hsm_premium_tier_component_structure :
    ∀ (d : ResourceData) (ud : UsageData) (kv : ResourceData)
      (rest : List ResourceData),
      d.references "key_vault_id" = kv :: rest →
      (kv.get "location").asString ≠ "" →
      strTitle ((kv.get "sku_name").asString) = "Premium" →
      strEndsWith ((d.get "key_type").asString) "HSM" = true →
      ¬((d.get "key_type").asString = "RSA-HSM" ∧
        (if !(d.get "key_size").isNull then (d.get "key_size").asString else "") = "2048") →
      (ud.get "hsm_protected_keys").existsVal = true →
      ∃ r ws, NewAzureKeyVaultKey d (some ud) = .ok (some r, ws) ∧
        (let ks := CalculateTierBuckets (((ud.get "hsm_protected_keys").asInt : Rat))
          [250, 1250, 2500]
         (r.costComponents.filter fun c => decide (c.unit = "months")).map
            (fun c => ((c.priceFilter.map fun pf => pf.startUsageAmount),
                       c.monthlyQuantity)) =
          [(some (some "0"), some (ks.getD 0 0))] ++
          (if ks.getD 1 0 > 0 then [(some (some "250"), some (ks.getD 1 0))] else []) ++
          (if ks.getD 2 0 > 0 then [(some (some "1500"), some (ks.getD 2 0))] else []) ++
          (if ks.getD 3 0 > 0 then [(some (some "4000"), some (ks.getD 3 0))] else [])) := by
  intro d ud kv rest href hloc hsku hkt hne hex
  have hval : usageIntVal (some ud) "hsm_protected_keys" =
      some (((ud.get "hsm_protected_keys").asInt : Rat)) := by
    simp [usageIntVal, hex, decimalPtr]
  rcases husage : usageIntVal (some ud) "monthly_protected_keys_operations" with _ | t <;>
    (simp [NewAzureKeyVaultKey, href, hloc, hsku, hkt, hval, hne, husage,
       vaultKeysCostComponent, Resource.costComponents];
     split_ifs <;> first | rfl | simp_all)

/-- C6 witness: an advanced HSM key (`RSA-HSM`, size 3072) on a Premium
vault with 300 protected keys. -/
theorem hsm_premium_tier_component_structure_witness :
    (exampleKeyVaultKey "RSA-HSM" (some 3072) [exampleKeyVault "eastus" "premium"]).references "key_vault_id" =
        exampleKeyVault "eastus" "premium" :: [] ∧
    ((exampleKeyVault "eastus" "premium").get "location").asString ≠ "" ∧
    strTitle (((exampleKeyVault "eastus" "premium").get "sku_name").asString) = "Premium" ∧
    strEndsWith (((exampleKeyVaultKey "RSA-HSM" (some 3072) [exampleKeyVault "eastus" "premium"]).get "key_type").asString) "HSM" = true ∧
    ¬(((exampleKeyVaultKey "RSA-HSM" (some 3072) [exampleKeyVault "eastus" "premium"]).get "key_type").asString = "RSA-HSM" ∧
      (if !((exampleKeyVaultKey "RSA-HSM" (some 3072) [exampleKeyVault "eastus" "premium"]).get "key_size").isNull then
        ((exampleKeyVaultKey "RSA-HSM" (some 3072) [exampleKeyVault "eastus" "premium"]).get "key_size").asString
       else "") = "2048") ∧
    ((UsageData.mk "azurerm_key_vault_key.example"
        [("hsm_protected_keys", GJson.num 300)]).get "hsm_protected_keys").existsVal = true ∧
    ∃ r ws,
      NewAzureKeyVaultKey (exampleKeyVaultKey "RSA-HSM" (some 3072) [exampleKeyVault "eastus" "premium"])
          (some (UsageData.mk "azurerm_key_vault_key.example"
            [("hsm_protected_keys", GJson.num 300)])) = .ok (some r, ws) ∧
      (let ks := CalculateTierBuckets
          ((((UsageData.mk "azurerm_key_vault_key.example"
            [("hsm_protected_keys", GJson.num 300)]).get "hsm_protected_keys").asInt : Rat))
          [250, 1250, 2500]
       (r.costComponents.filter fun c => decide (c.unit = "months")).map
          (fun c => ((c.priceFilter.map fun pf => pf.startUsageAmount),
                     c.monthlyQuantity)) =
        [(some (some "0"), some (ks.getD 0 0))] ++
        (if ks.getD 1 0 > 0 then [(some (some "250"), some (ks.getD 1 0))] else []) ++
        (if ks.getD 2 0 > 0 then [(some (some "1500"), some (ks.getD 2 0))] else []) ++
        (if ks.getD 3 0 > 0 then [(some (some "4000"), some (ks.getD 3 0))] else [])) :=
  ⟨rfl, by decide, by decide, by decide, by decide, by decide,
   hsm_premium_tier_component_structure
     (exampleKeyVaultKey "RSA-HSM" (some 3072) [exampleKeyVault "eastus" "premium"])
     (UsageData.mk "azurerm_key_vault_key.example" [("hsm_protected_keys", GJson.num 300)])
     (exampleKeyVault "eastus" "premium") [] rfl (by decide) (by decide) (by decide)
     (by decide) (by decide)⟩
